import Mathlib

/-!
Shallow embedding of `pistomp/midi_to_http/midi_snapshot_plugin.py`
(class `MidiSnapshotPlugin`).

The embedding keeps the source's names where possible.  Python dicts are
modelled as association lists with first-match lookup, Python threads as
numeric identifiers together with a set of live identifiers, and the
side effects of a call (handler-method invocations, log records) as
explicit result values.  Python `str` helpers that the source relies on
(`split(":")`, `startswith`, `int(...)`) are embedded as executable
character-list functions so every statement below can be evaluated.
-/

namespace MidiSnapshot

/-! ## Python string helpers -/

/-- Decimal digit to character, used to embed the f-string key
`f"\x7bchan\x7d:\x7bcc\x7d"` built by `handle_midi_message`. -/
def digitChar : Nat → Char
  | 0 => '0'
  | 1 => '1'
  | 2 => '2'
  | 3 => '3'
  | 4 => '4'
  | 5 => '5'
  | 6 => '6'
  | 7 => '7'
  | 8 => '8'
  | 9 => '9'
  | _ => '*'

/-- Fuel-driven decimal rendering of a natural number (fuel
`n + 1` always suffices, the digit count of `n` is at most `n + 1`). -/
def natDigitsAux : Nat → Nat → List Char
  | 0, _ => []
  | fuel + 1, n =>
    if n < 10 then [digitChar n]
    else natDigitsAux fuel (n / 10) ++ [digitChar (n % 10)]

/-- Decimal rendering of a natural number, as Python `str(n)`. -/
def natToStr (n : Nat) : String := String.mk (natDigitsAux (n + 1) n)

/-- `charsLead pre s` holds when `s` begins with `pre`; embeds Python
`str.startswith`. -/
def charsLead : List Char → List Char → Bool
  | [], _ => true
  | _ :: _, [] => false
  | c :: cs, d :: ds => if c = d then charsLead cs ds else false

/-- Python `a.startswith(pre)`. -/
def strBegins (pre a : String) : Bool := charsLead pre.toList a.toList

/-- Splitting a character list at every `':'`; embeds Python
`str.split(":")` (which keeps empty pieces). -/
def splitColonAux : List Char → List Char → List (List Char)
  | [], acc => [acc.reverse]
  | c :: cs, acc =>
    if c = ':' then acc.reverse :: splitColonAux cs []
    else splitColonAux cs (c :: acc)

/-- Python `a.split(":")`. -/
def pySplitColon (a : String) : List String :=
  (splitColonAux a.toList []).map (fun cs => String.mk cs)

/-- Whitespace characters stripped by Python `int` before parsing. -/
def isPySpace (c : Char) : Bool :=
  c = ' ' || c = '\t' || c = '\n' || c = '\r' || c = '\x0b' || c = '\x0c'

/-- Digit-run parser for Python `int`: decimal digits, with single
underscores allowed between digits (Python's numeric-literal rule). -/
def pyDigitsAux : List Char → Nat → Option Nat
  | [], acc => some acc
  | '_' :: c :: rest, acc =>
    if c.isDigit then pyDigitsAux (c :: rest) acc else none
  | ['_'], _ => none
  | c :: rest, acc =>
    if c.isDigit then pyDigitsAux rest (acc * 10 + (c.toNat - 48)) else none

/-- A nonempty digit run (no leading underscore). -/
def pyDigits (cs : List Char) : Option Nat :=
  match cs with
  | [] => none
  | c :: _ => if c.isDigit then pyDigitsAux cs 0 else none

/-- Python `int(s)`: optional surrounding whitespace, optional sign,
then a digit run.  `none` models a raised `ValueError`. -/
def pyInt (s : String) : Option Int :=
  let cs := ((s.toList.dropWhile isPySpace).reverse.dropWhile isPySpace).reverse
  match cs with
  | '+' :: rest => (pyDigits rest).map (fun n => (n : Int))
  | '-' :: rest => (pyDigits rest).map (fun n => -(n : Int))
  | _ => (pyDigits cs).map (fun n => (n : Int))

/-! ## Data model: messages, configuration, effects -/

/-- A decoded mido message, as consumed by `handle_midi_message`:
control-change and program-change carry a wire channel (0-15) and a
controller / program number; every other message type is `other`. -/
inductive MidiMsg
  | cc (channel control value : Nat)
  | pc (channel program : Nat)
  | other
deriving DecidableEq

/-- The `snapshot` section of the configuration
(`config['midi']['snapshot']`): two string-keyed dicts `cc` and `pc`
mapping `"channel:number"` to an action string. -/
structure SnapshotMap where
  cc : List (String × String)
  pc : List (String × String)
deriving DecidableEq

/-- The empty dict `\x7b\x7d`. -/
def emptySnapshotMap : SnapshotMap := ⟨[], []⟩

/-- Python dict lookup `d.get(k)` over an association list
(first match wins; keys are unique in a dict). -/
def assocGet : List (String × String) → String → Option String
  | [], _ => none
  | e :: m, k => if e.1 = k then some e.2 else assocGet m k

/-- Handler-method invocations performed by `handle_midi_message`. -/
inductive HandlerCall
  | preset_incr_and_change
  | preset_decr_and_change
  | preset_set_and_change (index : Int)
deriving DecidableEq

/-- Log records the embedding tracks (only those the claims mention). -/
inductive LogEntry
  | warnNoConfig
  | errActionFailed (action : String)
deriving DecidableEq

/-- The observable outcome of handling one message: the handler methods
called and the error/warning log records emitted. -/
structure HandleResult where
  calls : List HandlerCall
  logs : List LogEntry
deriving DecidableEq

/-! ## `handle_midi_message` -/

/-- The f-string key `f"\x7bchan\x7d:\x7bcc\x7d"`. -/
def mkKey (chan param : Nat) : String :=
  natToStr chan ++ (":") ++ natToStr param

/-- The action string bound to a message, if any: for control-change,
`snapshot_map['cc'].get(f"\x7bchannel+1\x7d:\x7bcontrol\x7d")`; for
program-change the same against `'pc'`; other message types have no
binding (the source returns before any lookup). -/
def boundAction (map : SnapshotMap) (msg : MidiMsg) : Option String :=
  match msg with
  | MidiMsg.cc channel control _ => assocGet map.cc (mkKey (channel + 1) control)
  | MidiMsg.pc channel program => assocGet map.pc (mkKey (channel + 1) program)
  | MidiMsg.other => none

/-- `int(action.split(":")[1])` as an `Option`: `none` models the
`ValueError` / `IndexError` that the surrounding `try` catches. -/
def load_index (a : String) : Option Int :=
  match pySplitColon a with
  | _ :: s :: _ => pyInt s
  | _ => none

/-- The `try` block of `handle_midi_message`: dispatch one (truthy)
action string.  A parse failure inside `load:` is caught by the
`except` clause, which logs and continues (no handler call). -/
def dispatch_action (a : String) : HandleResult :=
  if a = ("next") then ⟨[HandlerCall.preset_incr_and_change], []⟩
  else if a = ("previous") then ⟨[HandlerCall.preset_decr_and_change], []⟩
  else if strBegins ("load:") a then
    match load_index a with
    | some i => ⟨[HandlerCall.preset_set_and_change i], []⟩
    | none => ⟨[], [LogEntry.errActionFailed a]⟩
  else ⟨[], []⟩

/-- `handle_midi_message` (source lines 105-129): `other` messages
return immediately; a missing binding (`None`) or a falsy action
(`""`) returns silently; otherwise the action is dispatched. -/
def handle_midi_message (map : SnapshotMap) (msg : MidiMsg) : HandleResult :=
  match msg with
  | MidiMsg.other => ⟨[], []⟩
  | _ =>
    match boundAction map msg with
    | none => ⟨[], []⟩
    | some action => if action = ("") then ⟨[], []⟩ else dispatch_action action

/-- The per-message body of the `listen_to_port` read loop: the handler
is stateless, so a stream of messages is handled pointwise. -/
def process_messages (map : SnapshotMap) (msgs : List MidiMsg) : List HandleResult :=
  msgs.map (handle_midi_message map)

/-! ## Snapshot navigation (`load_next_snapshot` / `load_previous_snapshot`)

`modapi.get_snapshot_list()` returns an ordered mapping index → name;
it is embedded as a list of pairs in iteration order.  The functions
return the index passed to `load_snapshot`, or `none` when
`load_snapshot` is not called. -/

/-- Python `x in l` over a list of strings. -/
def strMem : List String → String → Bool
  | [], _ => false
  | x :: l, p => if x = p then true else strMem l p

/-- Python `l.index(x)`: position of the first occurrence (only used
under a membership guard, as in the source). -/
def listIndex (x : String) : List String → Nat
  | [] => 0
  | y :: ys => if y = x then 0 else listIndex x ys + 1

/-- `load_next_snapshot` (source lines 139-147): locate the current
name among the inventory's values and load the key at the next
position, wrapping with `(idx + 1) % len(names)`. -/
def load_next_snapshot (current_name : String)
    (snapshot_list : List (Nat × String)) : Option Nat :=
  let names := snapshot_list.map Prod.snd
  let keys := snapshot_list.map Prod.fst
  if strMem names current_name then
    let idx := listIndex current_name names
    let next_idx := (idx + 1) % names.length
    some (keys.getD next_idx 0)
  else none

/-- `load_previous_snapshot` (source lines 149-157): as above but with
`(idx - 1 + len(names)) % len(names)`, computed over `Int` exactly as
Python does. -/
def load_previous_snapshot (current_name : String)
    (snapshot_list : List (Nat × String)) : Option Nat :=
  let names := snapshot_list.map Prod.snd
  let keys := snapshot_list.map Prod.fst
  if strMem names current_name then
    let idx := listIndex current_name names
    let prev_idx := (((idx : Int) - 1 + (names.length : Int)) % (names.length : Int)).toNat
    some (keys.getD prev_idx 0)
  else none

/-! ## Listener registry (`active_ports`) and device monitor

`self.active_ports` maps a port name to a `threading.Thread`.  A thread
is embedded as a numeric identifier; the set of identifiers whose
thread is still running (`is_alive()`) is part of the state, together
with a fresh-identifier counter for newly constructed threads. -/

/-- The mutable plugin state the registry claims are about. -/
structure PluginState where
  active_ports : List (String × Nat)
  live : List Nat
  nextTid : Nat
deriving DecidableEq

/-- Python `self.active_ports.get(port_name)`. -/
def regGet : List (String × Nat) → String → Option Nat
  | [], _ => none
  | e :: r, p => if e.1 = p then some e.2 else regGet r p

/-- Python `self.active_ports.pop(port_name, None)` (key removal). -/
def regPop : List (String × Nat) → String → List (String × Nat)
  | [], _ => []
  | e :: r, p => if e.1 = p then regPop r p else e :: regPop r p

/-- Membership in the set of running thread identifiers. -/
def liveContains : List Nat → Nat → Bool
  | [], _ => false
  | x :: l, t => if x = t then true else liveContains l t

/-- Removal from the set of running thread identifiers. -/
def liveRemove : List Nat → Nat → List Nat
  | [], _ => []
  | x :: l, t => if x = t then liveRemove l t else x :: liveRemove l t

/-- `thread.is_alive()` for the thread with identifier `t`. -/
def is_alive (st : PluginState) (t : Nat) : Bool := liveContains st.live t

/-- The guard `thread and thread.is_alive()` of
`start_listening_to_port`: the registered entry exists and is live. -/
def isLivePort (st : PluginState) (p : String) : Bool :=
  match regGet st.active_ports p with
  | some t => is_alive st t
  | none => false

/-- `start_listening_to_port` (source lines 61-68): return if a live
entry exists; otherwise pop any stale entry, construct and start a
fresh thread, and register it. -/
def start_listening_to_port (st : PluginState) (port : String) : PluginState :=
  if isLivePort st port then st
  else
    { active_ports := regPop st.active_ports port ++ [(port, st.nextTid)]
      live := st.nextTid :: st.live
      nextTid := st.nextTid + 1 }

/-- The monitor's handling of a disconnected port:
`self.active_ports.pop(port, None)`. -/
def remove_port (st : PluginState) (port : String) : PluginState :=
  { st with active_ports := regPop st.active_ports port }

/-- One iteration of the `monitor_midi_devices` polling loop (source
lines 74-89): diff the current enumeration against the previous one,
start a listener for each new port, pop each removed port, and return
the updated state together with the new `previous_ports`. -/
def monitor_cycle (st : PluginState) (previous current : List String) :
    PluginState × List String :=
  let new_ports := current.filter (fun p => !strMem previous p)
  let removed_ports := previous.filter (fun p => !strMem current p)
  let st1 := new_ports.foldl start_listening_to_port st
  let st2 := removed_ports.foldl remove_port st1
  (st2, current)

/-- The effect on the plugin state of `listen_to_port` terminating
(source lines 92-103), by any of its exit paths: open failure, read
error, or loop end.  The `except` and `finally` clauses only log, so
`active_ports` is not modified; the thread itself is no longer
running. -/
def listen_to_port_exit (st : PluginState) (t : Nat) : PluginState :=
  { st with live := liveRemove st.live t }

/-! ## Configuration loading and startup -/

/-- The parsed YAML configuration shape consulted by `__init__`:
`config.get('midi', \x7b\x7d).get('snapshot', \x7b\x7d)` and
`config.get('verbose', False)`. -/
structure MidiSection where
  snapshot : Option SnapshotMap
deriving DecidableEq

/-- Top-level configuration dict. -/
structure Config where
  midi : Option MidiSection
  verbose : Option Bool
deriving DecidableEq

/-- The empty dict `\x7b\x7d` returned on a missing file. -/
def empty_config : Config := ⟨none, none⟩

/-- `load_config` (source lines 40-47): the argument is the parsed
configuration file when one exists; `FileNotFoundError` is caught, a
warning is logged, and the empty dict is returned. -/
def load_config (file : Option Config) : Config × List LogEntry :=
  match file with
  | some c => (c, [])
  | none => (empty_config, [LogEntry.warnNoConfig])

/-- `self.config.get('midi', \x7b\x7d).get('snapshot', \x7b\x7d)`. -/
def config_snapshot_map (c : Config) : SnapshotMap :=
  match c.midi with
  | some m => m.snapshot.getD emptySnapshotMap
  | none => emptySnapshotMap

/-- `self.config.get('verbose', False)`. -/
def config_verbose (c : Config) : Bool := c.verbose.getD false

/-- The plugin object constructed by `__init__` (source lines 32-38). -/
structure Plugin where
  snapshot_map : SnapshotMap
  verbose : Bool
  running : Bool
  ports : PluginState
deriving DecidableEq

/-- `__init__`: load the configuration, extract the snapshot map and
verbosity, initialise `running = False` and an empty registry.  The
emitted warning logs are returned alongside. -/
def init_plugin (file : Option Config) : Plugin × List LogEntry :=
  let r := load_config file
  ({ snapshot_map := config_snapshot_map r.1
     verbose := config_verbose r.1
     running := false
     ports := ⟨[], [], 0⟩ }, r.2)

/-- The two daemon tasks launched by `start`. -/
inductive StartedTask
  | listen_to_all_midi_ports
  | monitor_midi_devices
deriving DecidableEq

/-- `start` (source lines 49-52): set `running = True` and launch the
initial-scan task and the monitor task. -/
def Plugin.start (p : Plugin) : Plugin × List StartedTask :=
  ({ p with running := true },
   [StartedTask.listen_to_all_midi_ports, StartedTask.monitor_midi_devices])

/-! ## Registry lemmas -/

theorem regGet_regPop_self (r : List (String × Nat)) (p : String) :
    regGet (regPop r p) p = none := by
  induction r with
  | nil => rfl
  | cons e r ih => by_cases h : e.1 = p <;> simp [regPop, regGet, h, ih]

theorem regGet_regPop_ne (r : List (String × Nat)) (p q : String) (h : ¬ p = q) :
    regGet (regPop r q) p = regGet r p := by
  have hqp : ¬ q = p := fun hh => h hh.symm
  induction r with
  | nil => rfl
  | cons e r ih =>
    by_cases he : e.1 = q
    · simp [regPop, he, regGet, hqp, ih]
    · by_cases hep : e.1 = p <;> simp [regPop, he, regGet, hep, h, ih]

theorem regGet_update_self (r : List (String × Nat)) (p : String) (t : Nat) :
    regGet (regPop r p ++ [(p, t)]) p = some t := by
  induction r with
  | nil => simp [regPop, regGet]
  | cons e r ih => by_cases h : e.1 = p <;> simp [regPop, regGet, h, ih]

theorem regGet_update_ne (r : List (String × Nat)) (p q : String) (t : Nat)
    (h : ¬ p = q) : regGet (regPop r q ++ [(q, t)]) p = regGet r p := by
  have hq : ¬ q = p := fun hh => h hh.symm
  induction r with
  | nil => simp [regPop, regGet, hq]
  | cons e r ih =>
    by_cases he : e.1 = q
    · simp [regPop, he, regGet, hq, ih]
    · by_cases hep : e.1 = p <;> simp [regPop, he, regGet, hep, h, ih]

theorem liveContains_liveRemove_self (l : List Nat) (t : Nat) :
    liveContains (liveRemove l t) t = false := by
  induction l with
  | nil => rfl
  | cons x l ih => by_cases h : x = t <;> simp [liveRemove, liveContains, h, ih]

theorem strMem_filter (l : List String) (f : String → Bool) (p : String) :
    strMem (l.filter f) p = (strMem l p && f p) := by
  induction l with
  | nil => rfl
  | cons x l ih =>
    by_cases hx : x = p
    · subst hx
      cases hf : f x <;> simp [List.filter_cons, hf, strMem, ih]
    · cases hf : f x <;> simp [List.filter_cons, hf, strMem, hx, ih]

/-! ## `start_listening_to_port` lemmas -/

theorem start_of_live (st : PluginState) (p : String)
    (h : isLivePort st p = true) : start_listening_to_port st p = st := by
  unfold start_listening_to_port
  simp [h]

theorem isLivePort_start_self (st : PluginState) (p : String) :
    isLivePort (start_listening_to_port st p) p = true := by
  by_cases h : isLivePort st p = true
  · rw [start_of_live st p h]
    exact h
  · unfold start_listening_to_port
    rw [if_neg h]
    simp [isLivePort, regGet_update_self, is_alive, liveContains]

theorem regGet_start_ne (st : PluginState) (p q : String) (h : ¬ p = q) :
    regGet (start_listening_to_port st q).active_ports p = regGet st.active_ports p := by
  unfold start_listening_to_port
  by_cases hq : isLivePort st q = true
  · simp [hq]
  · simp [hq, regGet_update_ne st.active_ports p q st.nextTid h]

theorem is_alive_start_mono (st : PluginState) (q : String) (t : Nat)
    (h : is_alive st t = true) : is_alive (start_listening_to_port st q) t = true := by
  unfold start_listening_to_port
  by_cases hq : isLivePort st q = true
  · simp [hq, h]
  · simp only [is_alive] at h
    by_cases ht : st.nextTid = t <;> simp [hq, is_alive, liveContains, ht, h]

theorem isLivePort_start_mono (st : PluginState) (p q : String)
    (h : isLivePort st p = true) :
    isLivePort (start_listening_to_port st q) p = true := by
  by_cases hpq : p = q
  · subst hpq
    rw [start_of_live st p h]
    exact h
  · unfold isLivePort at h ⊢
    cases hg : regGet st.active_ports p with
    | none => rw [hg] at h; cases h
    | some t =>
      rw [hg] at h
      rw [regGet_start_ne st p q hpq, hg]
      exact is_alive_start_mono st q t h

theorem foldl_start_preserves (l : List String) (st : PluginState) (p : String)
    (h : isLivePort st p = true) :
    isLivePort (l.foldl start_listening_to_port st) p = true := by
  induction l generalizing st with
  | nil => exact h
  | cons q l ih =>
    simp only [List.foldl_cons]
    exact ih _ (isLivePort_start_mono st p q h)

theorem foldl_start_mem (l : List String) (st : PluginState) (p : String)
    (h : strMem l p = true) :
    isLivePort (l.foldl start_listening_to_port st) p = true := by
  induction l generalizing st with
  | nil => cases h
  | cons q l ih =>
    simp only [List.foldl_cons]
    by_cases hq : q = p
    · subst hq
      exact foldl_start_preserves l _ q (isLivePort_start_self st q)
    · have h' : strMem l p = true := by simpa [strMem, hq] using h
      exact ih _ h'

theorem foldl_start_not_mem (l : List String) (st : PluginState) (p : String)
    (h : strMem l p = false) :
    regGet ((l.foldl start_listening_to_port st)).active_ports p =
      regGet st.active_ports p := by
  induction l generalizing st with
  | nil => rfl
  | cons q l ih =>
    have hq : ¬ q = p := by
      intro hh
      rw [hh] at h
      simp [strMem] at h
    have hl : strMem l p = false := by simpa [strMem, hq] using h
    simp only [List.foldl_cons]
    rw [ih _ hl, regGet_start_ne st p q (fun hh => hq hh.symm)]

/-! ## `remove_port` lemmas -/

theorem foldl_pop_live (l : List String) (st : PluginState) :
    ((l.foldl remove_port st)).live = st.live := by
  induction l generalizing st with
  | nil => rfl
  | cons q l ih =>
    simp only [List.foldl_cons]
    rw [ih]
    rfl

theorem regGet_foldl_pop_none (l : List String) (st : PluginState) (p : String)
    (h : regGet st.active_ports p = none) :
    regGet ((l.foldl remove_port st)).active_ports p = none := by
  induction l generalizing st with
  | nil => exact h
  | cons q l ih =>
    simp only [List.foldl_cons]
    apply ih
    by_cases hq : p = q
    · subst hq
      simp [remove_port, regGet_regPop_self]
    · simp [remove_port, regGet_regPop_ne st.active_ports p q hq, h]

theorem foldl_pop_mem (l : List String) (st : PluginState) (p : String)
    (h : strMem l p = true) :
    regGet ((l.foldl remove_port st)).active_ports p = none := by
  induction l generalizing st with
  | nil => cases h
  | cons q l ih =>
    simp only [List.foldl_cons]
    by_cases hq : q = p
    · subst hq
      apply regGet_foldl_pop_none
      simp [remove_port, regGet_regPop_self]
    · have h' : strMem l p = true := by simpa [strMem, hq] using h
      exact ih _ h'

theorem foldl_pop_not_mem (l : List String) (st : PluginState) (p : String)
    (h : strMem l p = false) :
    regGet ((l.foldl remove_port st)).active_ports p = regGet st.active_ports p := by
  induction l generalizing st with
  | nil => rfl
  | cons q l ih =>
    have hq : ¬ q = p := by
      intro hh
      rw [hh] at h
      simp [strMem] at h
    have hl : strMem l p = false := by simpa [strMem, hq] using h
    simp only [List.foldl_cons]
    rw [ih _ hl]
    simp [remove_port, regGet_regPop_ne st.active_ports p q (fun hh => hq hh.symm)]

theorem isLivePort_foldl_pop (l : List String) (st : PluginState) (p : String)
    (h : strMem l p = false) :
    isLivePort ((l.foldl remove_port st)) p = isLivePort st p := by
  unfold isLivePort
  rw [foldl_pop_not_mem l st p h]
  cases regGet st.active_ports p <;> simp [is_alive, foldl_pop_live]

/-! ## Claim theorems -/

/-- Claim C1: the lookup key is built from the logical channel, which is
the wire channel plus one.  With config binding `cc["3:10"] = "load:5"`,
a control-change on wire channel 2 and controller 10 calls
`preset_set_and_change(5)`; the same message on wire channel 3 (logical
channel 4) finds no binding and calls no handler method. -/
theorem cc_channel_translation_lookup :
    handle_midi_message ⟨[(("3:10"), ("load:5"))], []⟩ (MidiMsg.cc 2 10 0) =
      ⟨[HandlerCall.preset_set_and_change 5], []⟩ ∧
    handle_midi_message ⟨[(("3:10"), ("load:5"))], []⟩ (MidiMsg.cc 3 10 0) =
      ⟨[], []⟩ := by
  exact ⟨by decide, by decide⟩

/-- Claim C2: `load_next_snapshot` and `load_previous_snapshot` wrap
around the inventory's value order: for inventory
`{0: "A", 1: "B", 2: "C"}`, current name `"C"` makes
`load_next_snapshot` load index 0, and current name `"A"` makes
`load_previous_snapshot` load index 2. -/
theorem snapshot_navigation_wraps :
    load_next_snapshot ("C") [(0, ("A")), (1, ("B")), (2, ("C"))] = some 0 ∧
    load_previous_snapshot ("A") [(0, ("A")), (1, ("B")), (2, ("C"))] = some 2 := by
  exact ⟨by decide, by decide⟩

/-- Claim C3, counterexample: starting a listener for port `"pA"` from
the empty state and then letting its read loop exit (thread 0
terminates) leaves the `active_ports` entry for `"pA"` in place — the
exiting listener does not remove its own registry entry, contrary to
the claim. -/
theorem listener_exit_keeps_entry_cex :
    regGet (listen_to_port_exit
      (start_listening_to_port ⟨[], [], 0⟩ ("pA")) 0).active_ports ("pA") =
      some 0 := by
  decide

/-- Claim C3, amended: when a listener's read loop exits (open failure,
read error, or loop end), the `except`/`finally` clauses only log: the
listener removes nothing from `active_ports`, so its (now dead) entry
stays in the registry until `start_listening_to_port` replaces it or
the monitor pops it after the device disappears. -/
theorem listener_exit_registry_unchanged (st : PluginState) (t : Nat) :
    (listen_to_port_exit st t).active_ports = st.active_ports ∧
    is_alive (listen_to_port_exit st t) t = false := by
  refine ⟨rfl, ?_⟩
  simp [listen_to_port_exit, is_alive, liveContains_liveRemove_self]

/-- Claim C4, counterexample: port `"pA"` is started from the empty
state, its listener thread 0 then dies while the device stays visible;
the next monitor cycle (previous = current = `["pA"]`) completes
without restarting it, so the registry holds no live entry for a
visible device — contrary to the claim. -/
theorem monitor_cycle_dead_listener_cex :
    isLivePort (monitor_cycle
      (listen_to_port_exit (start_listening_to_port ⟨[], [], 0⟩ ("pA")) 0)
      [("pA")] [("pA")]).1 ("pA") = false := by
  decide

/-- Claim C4, amended: one monitor cycle over previous set `previous`
and current enumeration `current` guarantees a live entry exactly for
the newly appeared ports: every port in `current` but not `previous`
has a live entry afterwards; every port in `previous` but not
`current` has no entry; the entry (live or dead or absent) of a port
in both sets is left unchanged. -/
theorem monitor_cycle_registry_effect (st : PluginState)
    (previous current : List String) (p : String) :
    (strMem current p = true → strMem previous p = false →
      isLivePort (monitor_cycle st previous current).1 p = true) ∧
    (strMem previous p = true → strMem current p = false →
      regGet (monitor_cycle st previous current).1.active_ports p = none) ∧
    (strMem current p = true → strMem previous p = true →
      regGet (monitor_cycle st previous current).1.active_ports p =
        regGet st.active_ports p) := by
  refine ⟨?_, ?_, ?_⟩
  · intro h1 h2
    simp only [monitor_cycle]
    have hnew : strMem (current.filter (fun q => !strMem previous q)) p = true := by
      rw [strMem_filter, h1, h2]
      rfl
    have hrem : strMem (previous.filter (fun q => !strMem current q)) p = false := by
      rw [strMem_filter, h2]
      rfl
    rw [isLivePort_foldl_pop _ _ _ hrem]
    exact foldl_start_mem _ _ _ hnew
  · intro h1 h2
    simp only [monitor_cycle]
    have hrem : strMem (previous.filter (fun q => !strMem current q)) p = true := by
      rw [strMem_filter, h1, h2]
      rfl
    exact foldl_pop_mem _ _ _ hrem
  · intro h1 h2
    simp only [monitor_cycle]
    have hnew : strMem (current.filter (fun q => !strMem previous q)) p = false := by
      rw [strMem_filter, h1, h2]
      rfl
    have hrem : strMem (previous.filter (fun q => !strMem current q)) p = false := by
      rw [strMem_filter, h2, h1]
      rfl
    rw [foldl_pop_not_mem _ _ _ hrem, foldl_start_not_mem _ _ _ hnew]

/-- Claim C4, amended, witness: from the empty state with previous set
`["a"]` and current set `["a", "b"]`, the cycle leaves a live entry
for the new port `"b"`; with current set `["b"]`, the cycle removes
the entry of the vanished port `"a"`. -/
theorem monitor_cycle_registry_effect_witness :
    isLivePort (monitor_cycle ⟨[], [], 0⟩ [("a")] [("a"), ("b")]).1 ("b") = true ∧
    regGet (monitor_cycle ⟨[(("a"), 0)], [0], 1⟩ [("a")] [("b")]).1.active_ports
      ("a") = none := by
  refine ⟨?_, ?_⟩
  · exact (monitor_cycle_registry_effect ⟨[], [], 0⟩ [("a")] [("a"), ("b")]
      ("b")).1 (by decide) (by decide)
  · exact (monitor_cycle_registry_effect ⟨[(("a"), 0)], [0], 1⟩ [("a")] [("b")]
      ("a")).2.1 (by decide) (by decide)

/-- Claim C5: `start_listening_to_port` is idempotent for live
listeners — a call while a live entry exists is a no-op, a call always
ends with a live entry, a second immediate call changes nothing, and a
dead entry is replaced by the freshly constructed (live) thread. -/
theorem start_listening_idempotent (st : PluginState) (p : String) :
    (isLivePort st p = true → start_listening_to_port st p = st) ∧
    isLivePort (start_listening_to_port st p) p = true ∧
    start_listening_to_port (start_listening_to_port st p) p =
      start_listening_to_port st p ∧
    (∀ t, regGet st.active_ports p = some t → is_alive st t = false →
      regGet (start_listening_to_port st p).active_ports p = some st.nextTid ∧
      is_alive (start_listening_to_port st p) st.nextTid = true) := by
  refine ⟨start_of_live st p, isLivePort_start_self st p, ?_, ?_⟩
  · exact start_of_live _ p (isLivePort_start_self st p)
  · intro t hg ha
    have hdead : ¬ isLivePort st p = true := by
      simp [isLivePort, hg, ha]
    unfold start_listening_to_port
    rw [if_neg hdead]
    refine ⟨regGet_update_self st.active_ports p st.nextTid, ?_⟩
    simp [is_alive, liveContains]

/-- Claim C5, witness: with a dead entry `("p" ↦ 0)` the call installs
the fresh live thread 1; with a live entry the call is a no-op. -/
theorem start_listening_idempotent_witness :
    regGet (start_listening_to_port ⟨[(("p"), 0)], [], 1⟩ ("p")).active_ports
      ("p") = some 1 ∧
    start_listening_to_port ⟨[(("p"), 0)], [0], 1⟩ ("p") =
      ⟨[(("p"), 0)], [0], 1⟩ := by
  refine ⟨?_, ?_⟩
  · exact ((start_listening_idempotent ⟨[(("p"), 0)], [], 1⟩ ("p")).2.2.2 0
      (by decide) (by decide)).1
  · exact (start_listening_idempotent ⟨[(("p"), 0)], [0], 1⟩ ("p")).1 (by decide)

/-- Claim C6: a bound action of the form `load:<non-numeric>` does not
raise out of the dispatch step — the `except` clause catches the
parse failure, an error is logged, no handler method is called, and
subsequent messages are processed exactly as they would be alone. -/
theorem malformed_load_action_caught (map : SnapshotMap) (msg : MidiMsg)
    (a : String) (h1 : boundAction map msg = some a)
    (h2 : strBegins ("load:") a = true) (h3 : load_index a = none) :
    handle_midi_message map msg = ⟨[], [LogEntry.errActionFailed a]⟩ ∧
    ∀ rest, process_messages map (msg :: rest) =
      ⟨[], [LogEntry.errActionFailed a]⟩ :: process_messages map rest := by
  have hn : ¬ a = ("next") := by
    intro hh
    rw [hh] at h2
    exact absurd h2 (by decide)
  have hp : ¬ a = ("previous") := by
    intro hh
    rw [hh] at h2
    exact absurd h2 (by decide)
  have hne : ¬ a = ("") := by
    intro hh
    rw [hh] at h2
    exact absurd h2 (by decide)
  have hd : dispatch_action a = ⟨[], [LogEntry.errActionFailed a]⟩ := by
    unfold dispatch_action
    simp [hn, hp, h2, h3]
  have hmain : handle_midi_message map msg = ⟨[], [LogEntry.errActionFailed a]⟩ := by
    cases msg with
    | other => simp [boundAction] at h1
    | cc c k v => simp [handle_midi_message, h1, hne, hd]
    | pc c k => simp [handle_midi_message, h1, hne, hd]
  exact ⟨hmain, fun rest => by simp [process_messages, hmain]⟩

/-- Claim C6, witness: binding `"1:1" ↦ "load:abc"` on a control-change
message yields no handler call and one error log. -/
theorem malformed_load_action_caught_witness :
    handle_midi_message ⟨[(("1:1"), ("load:abc"))], []⟩ (MidiMsg.cc 0 1 0) =
      ⟨[], [LogEntry.errActionFailed ("load:abc")]⟩ := by
  exact (malformed_load_action_caught ⟨[(("1:1"), ("load:abc"))], []⟩
    (MidiMsg.cc 0 1 0) ("load:abc") (by decide) (by decide) (by decide)).1

/-- Claim C7: when the current snapshot name is not among the
inventory's values, both navigation functions are no-ops — they return
without calling `load_snapshot` (and, being total, cannot throw). -/
theorem missing_current_name_noop (current_name : String)
    (snapshot_list : List (Nat × String))
    (h : strMem (snapshot_list.map Prod.snd) current_name = false) :
    load_next_snapshot current_name snapshot_list = none ∧
    load_previous_snapshot current_name snapshot_list = none := by
  constructor
  · simp only [load_next_snapshot]
    rw [h]
    rfl
  · simp only [load_previous_snapshot]
    rw [h]
    rfl

/-- Claim C7, witness: name `"X"` absent from inventory
`{0: "A", 1: "B"}`. -/
theorem missing_current_name_noop_witness :
    load_next_snapshot ("X") [(0, ("A")), (1, ("B"))] = none ∧
    load_previous_snapshot ("X") [(0, ("A")), (1, ("B"))] = none := by
  exact missing_current_name_noop ("X") [(0, ("A")), (1, ("B"))] (by decide)

/-- Claim C8: a message that is neither control-change nor
program-change, or whose key has no binding, is handled with no
handler call, no error, and no log output. -/
theorem unbound_message_silent (map : SnapshotMap) (msg : MidiMsg)
    (h : boundAction map msg = none) :
    handle_midi_message map msg = ⟨[], []⟩ := by
  cases msg with
  | other => rfl
  | cc c k v => simp [handle_midi_message, h]
  | pc c k => simp [handle_midi_message, h]

/-- Claim C8, witness: an `other`-type message, and a control-change
whose logical channel 1 has no binding in a map keyed `"3:10"`. -/
theorem unbound_message_silent_witness :
    handle_midi_message emptySnapshotMap MidiMsg.other = ⟨[], []⟩ ∧
    handle_midi_message ⟨[(("3:10"), ("load:5"))], []⟩ (MidiMsg.cc 0 10 0) =
      ⟨[], []⟩ := by
  exact ⟨unbound_message_silent emptySnapshotMap MidiMsg.other (by decide),
    unbound_message_silent ⟨[(("3:10"), ("load:5"))], []⟩ (MidiMsg.cc 0 10 0)
      (by decide)⟩

/-- Claim C9: absent configuration is non-fatal: `load_config` returns
the empty dict (plus a warning log), the snapshot map starts empty,
and `start` still sets `running` and launches the listener and monitor
tasks. -/
theorem no_config_startup :
    load_config none = (empty_config, [LogEntry.warnNoConfig]) ∧
    (init_plugin none).1.snapshot_map = emptySnapshotMap ∧
    (Plugin.start (init_plugin none).1).1.running = true ∧
    (Plugin.start (init_plugin none).1).2 =
      [StartedTask.listen_to_all_midi_ports, StartedTask.monitor_midi_devices] := by
  exact ⟨rfl, rfl, rfl, rfl⟩

/-- Claim C10: a bound action that is neither `"next"`, `"previous"`,
nor a `"load:"`-prefixed string is silently ignored: no handler call,
no exception, no log record. -/
theorem unknown_action_silent (map : SnapshotMap) (msg : MidiMsg) (a : String)
    (h1 : boundAction map msg = some a) (h2 : ¬ a = ("next"))
    (h3 : ¬ a = ("previous")) (h4 : strBegins ("load:") a = false) :
    handle_midi_message map msg = ⟨[], []⟩ := by
  have hd : dispatch_action a = ⟨[], []⟩ := by
    unfold dispatch_action
    simp [h2, h3, h4]
  cases msg with
  | other => rfl
  | cc c k v =>
    by_cases he : a = ("")
    · simp [handle_midi_message, h1, he]
    · simp [handle_midi_message, h1, he, hd]
  | pc c k =>
    by_cases he : a = ("")
    · simp [handle_midi_message, h1, he]
    · simp [handle_midi_message, h1, he, hd]

/-- Claim C10, witness: binding `"1:1" ↦ "stop"` on a matching
control-change produces no handler call and no log. -/
theorem unknown_action_silent_witness :
    handle_midi_message ⟨[(("1:1"), ("stop"))], []⟩ (MidiMsg.cc 0 1 0) =
      ⟨[], []⟩ := by
  exact unknown_action_silent ⟨[(("1:1"), ("stop"))], []⟩ (MidiMsg.cc 0 1 0)
    ("stop") (by decide) (by decide) (by decide) (by decide)

end MidiSnapshot
